import Mathlib

/-!
Verification of the MerlinPlotting error-aggregation core (src/Exceptions/)
against its natural-language specification.

The Python source is shallowly embedded:
* Exception records (`Fatal.py`, `NonFatal.py`, `ExceptionContainerType.py`,
  `MerlinPlottingExcept.py`) become the `ErrRecord` structure tagged with an
  `ErrKind`; per-class methods become Lean functions dispatching on the kind.
* `datetime` instants become `Nat` (a totally ordered clock); `strftime`
  rendering is an injective computable rendering, since no property under
  scrutiny inspects the rendered text itself.
* The file system becomes `FileSys` (a map from path to list of lines plus a
  write-failure flag used to model an I/O error when opening for writing).
* Python exceptions raised by the embedded code become `Except PyErr`;
  console output and process exit become an explicit `ConsoleEffect` trace.
-/

/-- Entry of an `ExceptionContainerType`'s sorted contents: either a plain
string or a `(Key, Value)` pair (`ExceptionContainerType.py` line 132). -/
inductive Entry where
  | str (s : String)
  | pair (k v : String)
deriving DecidableEq, Repr

/-- Comparison used by the `SortedList` holding entries: Python compares
strings lexicographically and tuples lexicographically.  Comparing a string
with a tuple raises `TypeError` in the source; containers are homogeneous in
practice, so the cross-shape ordering chosen here is never observed. -/
def entryLt : Entry → Entry → Bool
  | Entry.str a, Entry.str b => compare a b == Ordering.lt
  | Entry.pair a b, Entry.pair c d =>
      compare a c == Ordering.lt || (a == c && compare b d == Ordering.lt)
  | Entry.str _, Entry.pair _ _ => true
  | Entry.pair _ _, Entry.str _ => false

/-- `SortedList.add`: insert keeping sorted order (after any equal elements,
as `bisect_right` does). -/
def insertSorted (a : Entry) : List Entry → List Entry
  | [] => [a]
  | b :: l => if entryLt a b then a :: b :: l else b :: insertSorted a l

/-- The keys of the pair entries, as read by the comprehension
`[first for first, second in self.Contents]` (`ExceptionContainerType.py`
line 136).  In Python that unpacking is only defined when every element is a
pair (a stray string entry of length ≠ 2 raises `ValueError`); the embedding
reads the keys of the pair entries, which agrees on pair-only contents. -/
def pairKeys (l : List Entry) : List String :=
  l.filterMap fun e =>
    match e with
    | Entry.pair k _ => some k
    | Entry.str _ => none

/-- `ExceptionContainerType.Add` (lines 130-137): add only unique non-empty
strings, or pairs with unique primary keys, to the sorted contents. -/
def ExceptionContainerType.Add (contents : List Entry) (value : Entry) : List Entry :=
  match value with
  | Entry.str s =>
      if s ≠ "" ∧ Entry.str s ∉ contents then insertSorted (Entry.str s) contents
      else contents
  | Entry.pair k v =>
      if k ∉ pairKeys contents then insertSorted (Entry.pair k v) contents
      else contents

/-- The closed set of error kinds (the concrete classes of `Fatal.py` and
`NonFatal.py`).  Aggregator contents are keyed by `type(exception)`, i.e. by
this kind. -/
inductive ErrKind where
  | cmdLineErrors        -- CommandLineErrors      (Fatal, container)
  | configFilesMissing   -- ConfigFilesMissing     (Fatal, container)
  | failedPNGs           -- FailedToGeneratePNGS   (NonFatal, container)
  | merlinCurvesMissing  -- MerlinCurvesMissing    (NonFatal, container)
  | noPlotsLoaded        -- NoPlotsLoaded          (NonFatal, container)
  | failedPDF            -- FailedToGeneratePDF    (NonFatal, single, path)
  | outlookFailed        -- OutlookFailed          (NonFatal, single)
  | logFileFailed        -- LogFileFailed          (NonFatal, single, path)
deriving DecidableEq, Repr

/-- `isinstance(·, Fatal)` on an instance of the kind. -/
def isFatalKind : ErrKind → Bool
  | ErrKind.cmdLineErrors => true
  | ErrKind.configFilesMissing => true
  | _ => false

/-- `isinstance(·, ExceptionContainerType)` on an instance of the kind. -/
def isContainerKind : ErrKind → Bool
  | ErrKind.cmdLineErrors => true
  | ErrKind.configFilesMissing => true
  | ErrKind.failedPNGs => true
  | ErrKind.merlinCurvesMissing => true
  | ErrKind.noPlotsLoaded => true
  | _ => false

/-- A concrete exception record.  Fields common to every
`MerlinPlottingExcept` (calling function, specific message, timestamp) plus
the per-class payloads: the sorted `Contents` of container kinds, the
auxiliary `InvalidArgs` list of `CommandLineErrors`, the auxiliary
`MissingConfigs` list of `ConfigFilesMissing`, and the `Path` carried by the
`PathType` kinds (`FailedToGeneratePDF`, `LogFileFailed`).  Payload fields
not belonging to a record's kind stay at their empty defaults, mirroring
attributes that simply do not exist on the Python instance. -/
structure ErrRecord where
  kind : ErrKind
  callingFunc : String := ""
  specific : String := ""
  timestamp : Nat := 0
  contents : List Entry := []
  invalidArgs : List String := []
  missingConfigs : List (String × String) := []
  path : String := ""
deriving DecidableEq, Repr

/-- `ExceptionContainerType.Merge` (lines 53-69) applied to another container
record of the same kind: lower the timestamp to the earlier of the two
(`self.TimeStamp = container.TimeStamp if container.TimeStamp < self.TimeStamp
else self.TimeStamp`), then `Add` every entry of the other's contents.
The `TimeStamp` setter (`MerlinPlottingExcept.py` lines 98-113) is the
identity on datetime values. -/
def ExceptionContainerType.Merge (self other : ErrRecord) : ErrRecord :=
  let ts := if other.timestamp < self.timestamp then other.timestamp else self.timestamp
  { self with
      timestamp := ts
      contents := other.contents.foldl ExceptionContainerType.Add self.contents }

/-- `ExceptionContainerType.HasErrors` (lines 104-109): `len(Contents) > 0`. -/
def ExceptionContainerType.HasErrors (r : ErrRecord) : Bool :=
  decide (r.contents.length > 0)

/-- `ExceptionContainerType.ErrorCount` (lines 98-102): `len(Contents)`. -/
def ExceptionContainerType.ErrorCount (r : ErrRecord) : Nat :=
  r.contents.length

/-- `CommandLineErrors.HasErrors` (`Fatal.py` lines 73-76): the base
container's `HasErrors` OR the auxiliary invalid-arguments list being
non-empty. -/
def CommandLineErrors.HasErrors (r : ErrRecord) : Bool :=
  ExceptionContainerType.HasErrors r || decide (r.invalidArgs.length > 0)

/-- `ConfigFilesMissing.ErrorCount` (`Fatal.py` lines 176-180):
`len(MissingConfigs) + len(Contents)`. -/
def ConfigFilesMissing.ErrorCount (r : ErrRecord) : Nat :=
  r.missingConfigs.length + r.contents.length

/-- `', '.join(self.Contents)` — `ExceptionContainerType.Message` (lines
47-51).  Joining a pair entry raises `TypeError` in Python; the kinds that
call this (`FailedToGeneratePNGS`, `MerlinCurvesMissing`, `NoPlotsLoaded`)
hold only string entries, which is what the embedding joins. -/
def ExceptionContainerType.Message (r : ErrRecord) : String :=
  String.intercalate ", "
    (r.contents.filterMap fun e =>
      match e with
      | Entry.str s => some s
      | Entry.pair _ _ => none)

/-- The pair rendering `arg + ' : ' + msg` of `CommandLineErrors.Message`. -/
def cmdLinePairText (l : List Entry) : List String :=
  l.filterMap fun e =>
    match e with
    | Entry.pair k v => some (k ++ " : " ++ v)
    | Entry.str _ => none

/-- `CommandLineErrors.Message` (`Fatal.py` lines 106-119). -/
def CommandLineErrors.Message (r : ErrRecord) (granular : Bool) : String :=
  if granular then
    let g :=
      if r.contents.length > 0 then
        "The following command line errors were improperly set: \n\x7b " ++
          String.intercalate ",\n" (cmdLinePairText r.contents) ++ " \x7d"
      else ""
    if r.invalidArgs.length > 0 then
      g ++ (if g ≠ "" then "\n" else "") ++
        "The following arguments are invalid: \n\x7b " ++
        String.intercalate "," r.invalidArgs ++ " \x7d"
    else g
  else
    toString (ExceptionContainerType.ErrorCount r) ++
      " command line errors were improperly passed."

/-- `ConfigFilesMissing.Message` (`Fatal.py` lines 236-243). -/
def ConfigFilesMissing.Message (r : ErrRecord) (granular : Bool) : String :=
  if granular then
    "The following \x7bConfiguration Files : Path \x7d could not be loaded:\n" ++
      String.intercalate ",\n"
        ((r.missingConfigs.filter fun p => p.1 ≠ "" ∧ p.2 ≠ "").map
          fun p => p.1 ++ ":\n" ++ p.2)
  else
    toString (ConfigFilesMissing.ErrorCount r) ++
      " configuration files could not be loaded."

/-- `Message(granular)` of each concrete class (`Fatal.py`, `NonFatal.py`),
dispatched on the record's kind as Python dispatches on its class. -/
def ErrRecord.Message (r : ErrRecord) (granular : Bool) : String :=
  match r.kind with
  | ErrKind.cmdLineErrors => CommandLineErrors.Message r granular
  | ErrKind.configFilesMissing => ConfigFilesMissing.Message r granular
  | ErrKind.failedPNGs =>
      if granular then
        "Failed to generate the following PNG charts: \n\x7b" ++
          ExceptionContainerType.Message r ++ "\x7d"
      else "Failed to generate " ++ toString (ExceptionContainerType.ErrorCount r) ++ " PNGs."
  | ErrKind.merlinCurvesMissing =>
      if granular then
        "The following Merlin Curves are missing from production: \x7b " ++
          ExceptionContainerType.Message r ++ " \x7d"
      else toString (ExceptionContainerType.ErrorCount r) ++
        " Merlin Curves could not be found in production locations. "
  | ErrKind.noPlotsLoaded =>
      if granular then
        "The following plots had no Merlin Curves in the configuration: \n\x7b" ++
          ExceptionContainerType.Message r ++ "\x7d"
      else toString (ExceptionContainerType.ErrorCount r) ++
        " plots had no Merlin Curves added to configuration."
  | ErrKind.failedPDF =>
      if granular then "Failed to generate PDF at path: \n\x7b" ++ r.path ++ "\x7d"
      else "Failed to generate PDF."
  | ErrKind.outlookFailed =>
      if granular then "Outlook error: " ++ r.specific
      else "The Outlook email failed to generate."
  | ErrKind.logFileFailed =>
      if granular then
        "LogFile could not be generated at \n" ++ r.path ++
          (if r.specific ≠ "" then "\nreason: " ++ r.specific else "")
      else "The LogFile could not be generated. "

/-- One observable console/process action of the embedded code: a line
printed to stdout, or the process terminating (`sys.exit` would emit
`exitApp`). -/
inductive ConsoleEffect where
  | print (s : String)
  | exitApp
deriving DecidableEq, Repr

/-- `Fatal.MessageHeader` (`Fatal.py` lines 31-37): the fixed banner. -/
def Fatal.MessageHeader : String :=
  "####################################################################" ++
  "\n# Fatal Error: " ++
  "\n####################################################################"

/-- `Fatal.HandleAndExit` (`Fatal.py` lines 39-48), as the trace of effects
it performs: print the banner, print `Message(granular)`, print
`'Exiting application.'` — and return.  The source contains no `sys.exit`
call (none exists anywhere in the repository), so no `exitApp` effect is
ever emitted. -/
def Fatal.HandleAndExit (r : ErrRecord) (granular : Bool) : List ConsoleEffect :=
  [ConsoleEffect.print Fatal.MessageHeader,
   ConsoleEffect.print (r.Message granular),
   ConsoleEffect.print "Exiting application."]

/-- `ExceptionContainerType.__init__` contents initialization: start from an
empty `SortedList` and `Merge(targetList)`, i.e. `Add` each element. -/
def containerInitContents (targetList : List Entry) : List Entry :=
  targetList.foldl ExceptionContainerType.Add []

/-- `CommandLineErrors.__init__` (`Fatal.py` lines 60-68): initialize the
base container from `targetList`, set `InvalidArgs`, then `Add(cmdLineInput)`. -/
def mkCommandLineErrors (callingFunc : String) (cmdLineInput : String)
    (invalidArgs : List String) (specific : String) (timestamp : Nat)
    (targetList : List Entry) : ErrRecord :=
  { kind := ErrKind.cmdLineErrors
    callingFunc := callingFunc
    specific := specific
    timestamp := timestamp
    contents := ExceptionContainerType.Add (containerInitContents targetList)
      (Entry.str cmdLineInput)
    invalidArgs := invalidArgs }

/-- `LogFileFailed.__init__` (`NonFatal.py` lines 226-232): a NonFatal
carrying the log path that could not be written and the specific cause.
The `timestamp` defaults in the source to a `datetime.now()` evaluated once
at module load; the embedding leaves it at the record default. -/
def mkLogFileFailed (callingFunc logPath specific : String) : ErrRecord :=
  { kind := ErrKind.logFileFailed
    callingFunc := callingFunc
    specific := specific
    path := logPath }

/-- Python `str.split(sep)` for a single-character separator, over the
character list of the string.  `''.split(sep) = ['']`. -/
def pySplit (sep : Char) : List Char → List (List Char)
  | [] => [[]]
  | c :: rest =>
      if c = sep then [] :: pySplit sep rest
      else
        match pySplit sep rest with
        | [] => [[c]]
        | h :: t => (c :: h) :: t

/-- Python `range(0, stop, step)` for `step > 0`. -/
def pyRange (stop step : Nat) : List Nat :=
  (List.range ((stop + step - 1) / step)).map (· * step)

/-- Python slice `l[a:b]` on a list of characters (out-of-range bounds
clamp). -/
def pySlice (l : List Char) (a b : Nat) : List Char :=
  (l.drop a).take (b - a)

/-- `LogFile.__MessageBufferLength` (`LogFile.py` line 29). -/
def MessageBufferLength : Nat := 105

/-- `LogFile.__MessageChunks` (`LogFile.py` lines 161-182), on the message's
characters.  Note the source computes `length = len(message)` *before*
stripping tabs and uses that same `length` as the slice bound for every
newline-chunk. -/
def MessageChunks (message : List Char) : List (List Char) :=
  let chunkSize := MessageBufferLength
  let length := message.length
  let stripped := message.filter fun c => c ≠ '\t'
  let chunks := pySplit '\n' stripped
  chunks.foldl
    (fun output chunk =>
      output ++ (pyRange length chunkSize).map fun index =>
        pySlice chunk index (if index + chunkSize < length then index + chunkSize else length))
    []

/-- Python `'s':<n` format padding: left-justify to width `n` with spaces
(never truncates). -/
def ljust (s : String) (n : Nat) : String :=
  s ++ String.mk (List.replicate (n - s.length) ' ')

/-- `LogFile.__LineFormatString`: `'{0:<20}{1:<110}{2:<60}{3:<20}'.format`
(`LogFile.py` lines 31 and 49, buffer length 105 + 5). -/
def lineFormat (c0 c1 c2 c3 : String) : String :=
  ljust c0 20 ++ ljust c1 (MessageBufferLength + 5) ++ ljust c2 60 ++ ljust c3 20

/-- The process-wide username read by `getpass.getuser()` (`LogFile.py` line
27); its value is environment-derived and irrelevant to every property. -/
def logFileUser : String := "user"

/-- `strftime('%m/%d/%Y %H:%M:%S')` of `TimeStampToStr(True)`
(`MerlinPlottingExcept.py` lines 61-63), abstracted to a computable
rendering of the `Nat` instant; no property inspects its text. -/
def TimeStampToStr (t : Nat) : String := toString t

/-- `LogFile.__Headers` (`LogFile.py` lines 150-159): the column-title row
and the 250-dash separator rule. -/
def LogFileHeaders : List String :=
  [lineFormat "Username:" "Message:" "Calling Function:" "TimeStamp:",
   String.mk (List.replicate 250 '-')]

/-- `LogFile.__FormattedMessages(exception, granular)` (`LogFile.py` lines
124-148): chunk the message, drop blank chunks, and format each chunk as a
fixed-width row `User | chunk | CallingFunction | TimeStamp`. -/
def FormattedMessages (e : ErrRecord) (granular : Bool) : List String :=
  (((MessageChunks (e.Message granular).data).filter fun chunk => chunk ≠ []).map
    fun chunk => lineFormat logFileUser (String.mk chunk) e.callingFunc
      (TimeStampToStr e.timestamp))

/-- The `LogFile` object state: resolved output path and the two error
groups of `self.Errors` (`LogFile.py` line 48).  The groups are Python
`SortedList`s of exception objects, which define no ordering; the embedding
keeps them in insertion order (no property depends on the intra-group
order). -/
structure LogFile where
  path : String
  fatalErrors : List ErrRecord := []
  nonFatalErrors : List ErrRecord := []
deriving Repr

/-- `LogFile.__init__` (`LogFile.py` lines 35-49) with the output path
already resolved.  The source resolves the default path from the working
directory, applies size-based rotation (`HandleLargeFiles`) and creates the
target folder; no claim concerns that resolution, so the embedding takes the
resolved path as input.  The `valueDate` and `runTime` parameters are
accepted and ignored, exactly as in the source constructor body. -/
def mkLogFile (_valueDate : Nat) (_runTime : String) (path : String) : LogFile :=
  { path := path }

/-- `LogFile.Append` (`LogFile.py` lines 63-77): route the record into the
Fatal or NonFatal group. -/
def LogFile.Append (lf : LogFile) (e : ErrRecord) : LogFile :=
  if isFatalKind e.kind then { lf with fatalErrors := lf.fatalErrors ++ [e] }
  else { lf with nonFatalErrors := lf.nonFatalErrors ++ [e] }

/-- A Python exception as raised by the embedded code: `ValueError`,
`NameError` (evaluation of an undefined name), or a raised
`MerlinPlottingExcept`-derived record. -/
inductive PyErr where
  | valueError (msg : String)
  | nameError (msg : String)
  | merlinExc (r : ErrRecord)
deriving DecidableEq, Repr

/-- The file system visible to `LogFile.Print`: contents of each path as a
list of lines (written with a trailing `'\n'` each and read back with the
newline stripped, so lines round-trip), plus `writeErr`, which when set
makes opening the log path for writing fail with an `IOError` carrying that
message. -/
structure FileSys where
  files : String → Option (List String)
  writeErr : Option String := none

/-- `os.path.exists` / `DirectoryType.CheckPath`. -/
def FileSys.checkPath (fs : FileSys) (p : String) : Bool :=
  (fs.files p).isSome

/-- `open(p, 'w')` + `writelines`: replace the contents at `p`. -/
def FileSys.setFile (fs : FileSys) (p : String) (lines : List String) : FileSys :=
  { fs with files := fun q => if q = p then some lines else fs.files q }

/-- The newly rendered rows of one `Print` run (`LogFile.py` lines 109-112):
every Fatal record's formatted rows, then every NonFatal record's rows (the
`self.Errors` dict iterates in insertion order: Fatal first), each record
rendered granularly by `__FormattedMessages(currExcept, True)`. -/
def LogFile.renderedRows (lf : LogFile) : List String :=
  (lf.fatalErrors ++ lf.nonFatalErrors).foldl
    (fun acc e => acc ++ FormattedMessages e true) []

/-- `LogFile.Print` (`LogFile.py` lines 82-122).  Faithful control flow:
* line 94 compares the *bound method object* `self.ErrorCount` (not its
  call) with `0`; a method object never equals `0` in Python, so the early
  return is dead code and headers are composed unconditionally;
* if the path exists, its lines are read and all but the first two are kept
  as `prevLines` (only when more than two lines are present);
* the file is rewritten as headers, then each Fatal record's formatted rows,
  then each NonFatal record's rows (the `self.Errors` dict iterates in
  insertion order: Fatal first), then `prevLines`;
* a failure inside the `try` (modelled: the open-for-write failing with
  `writeErr`) is re-raised as `LogFileFailed('LogFile::Print()', logPath=
  self.Path, specific=err.message)`. -/
def LogFile.Print (lf : LogFile) (fs : FileSys) : Except PyErr FileSys :=
  let allLines := LogFileHeaders
  let prevLines :=
    if fs.checkPath lf.path then
      let pl := (fs.files lf.path).getD []
      if pl.length > 2 then pl.drop 2 else []
    else []
  match fs.writeErr with
  | some msg => Except.error (PyErr.merlinExc (mkLogFileFailed "LogFile::Print()" lf.path msg))
  | none =>
      let allLines := allLines ++ lf.renderedRows
      let allLines := allLines ++ prevLines
      Except.ok (fs.setFile lf.path allLines)

/-- `ExceptionAggregator`: the internal dict `__ExceptDict` mapping
`type(exception)` to the stored record, as an insertion-ordered association
list (Python dicts preserve insertion order). -/
structure ExceptionAggregator where
  contents : List (ErrKind × ErrRecord) := []
deriving DecidableEq, Repr

/-- A Python value as passed around by `ExceptionAggregator`: an exception
*instance*, a *class* object (a key of the contents dict), the raw contents
*dict* itself (what `Contents.setter` hands to `Merge`), or an
`ExceptionAggregator` object. -/
inductive PyVal where
  | inst (r : ErrRecord)
  | cls (k : ErrKind)
  | dict (d : List (ErrKind × ErrRecord))
  | aggObj (a : ExceptionAggregator)

/-- `ExceptionAggregator.IsContainerType` (lines 146-151):
`isinstance(exception, ExceptionContainerType)`.  True only for an
*instance* of a container class; a class object or a dict is not an
instance of `ExceptionContainerType`, so `isinstance` returns `False` for
them. -/
def ExceptionAggregator.IsContainerType : PyVal → Bool
  | PyVal.inst r => isContainerKind r.kind
  | PyVal.cls _ => false
  | PyVal.dict _ => false
  | PyVal.aggObj _ => false  -- ExceptionAggregator derives from NonFatal only

/-- Python dict assignment `d[k] = v`: replace in place if the key exists
(keeping its position), else append. -/
def dictSet (l : List (ErrKind × ErrRecord)) (k : ErrKind) (v : ErrRecord) :
    List (ErrKind × ErrRecord) :=
  if l.any fun p => p.1 = k then l.map fun p => if p.1 = k then (k, v) else p
  else l ++ [(k, v)]

/-- Per-class `Merge` dispatch used by `Contents[type(exception)].Merge`:
`ConfigFilesMissing.Merge` (`Fatal.py` lines 219-234) first merges the
auxiliary `MissingConfigs` container (unique on the name component,
`__MergeMissingConfigs`, lines 199-214), every class then delegates to
`ExceptionContainerType.Merge`. -/
def recordMerge (self other : ErrRecord) : ErrRecord :=
  match self.kind with
  | ErrKind.configFilesMissing =>
      let merged := other.missingConfigs.foldl
        (fun acc p =>
          if p.1 ≠ "" ∧ p.1 ∉ acc.map Prod.fst then acc ++ [p] else acc)
        self.missingConfigs
      ExceptionContainerType.Merge { self with missingConfigs := merged } other
  | _ => ExceptionContainerType.Merge self other

/-- `ExceptionAggregator.Add` (lines 39-64) for a Fatal/NonFatal record
(the `ValueError` guard for non-records and the delegation branch for an
aggregator argument are outside `ErrRecord`): create a new dict entry for an
absent container kind, `Merge` into a present container kind, and set or
replace a non-container kind. -/
def ExceptionAggregator.Add (self : ExceptionAggregator) (e : ErrRecord) :
    ExceptionAggregator :=
  if ExceptionAggregator.IsContainerType (PyVal.inst e) ∧
      e.kind ∉ self.contents.map Prod.fst then
    ⟨dictSet self.contents e.kind e⟩
  else if ExceptionAggregator.IsContainerType (PyVal.inst e) then
    ⟨self.contents.map fun p => if p.1 = e.kind then (p.1, recordMerge p.2 e) else p⟩
  else
    ⟨dictSet self.contents e.kind e⟩

/-- The body of `ExceptionAggregator.Merge`'s loop (lines 80-86): for each
key `exceptionType` of the other aggregator's contents,
`IsContainerType(exceptionType)` is evaluated on the *class* key — which is
never an instance of `ExceptionContainerType`, so the `else` branch runs and
evaluates `self.Add(item)` where no name `item` is in scope: a `NameError`. -/
def mergeLoop (self : ExceptionAggregator) :
    List (ErrKind × ErrRecord) → Except PyErr ExceptionAggregator
  | [] => Except.ok self
  | (k, r) :: rest =>
      if ExceptionAggregator.IsContainerType (PyVal.cls k) then
        mergeLoop (self.Add r) rest
      else
        Except.error (PyErr.nameError "name 'item' is not defined")

/-- `ExceptionAggregator.Merge` (lines 66-86): skip on `None`, reject any
argument that is not an `ExceptionAggregator` instance with `ValueError`,
else run the key loop over the other aggregator's contents. -/
def ExceptionAggregator.Merge (self : ExceptionAggregator) :
    Option PyVal → Except PyErr ExceptionAggregator
  | none => Except.ok self
  | some (PyVal.aggObj a) => mergeLoop self a.contents
  | some (PyVal.inst _) =>
      Except.error (PyErr.valueError "exceptionAgg must be an ExceptionAggregator object.")
  | some (PyVal.cls _) =>
      Except.error (PyErr.valueError "exceptionAgg must be an ExceptionAggregator object.")
  | some (PyVal.dict _) =>
      Except.error (PyErr.valueError "exceptionAgg must be an ExceptionAggregator object.")

/-- `Contents.setter` (lines 180-195): on `None`, keep the current dict; on
an aggregator, take *its internal dict* (`container = container.Contents`),
reset `__ExceptDict`, and call `self.Merge(container)` — whose argument is
now a dict, not an aggregator. -/
def contentsSetter (self : ExceptionAggregator) :
    Option ExceptionAggregator → Except PyErr ExceptionAggregator
  | none => Except.ok self
  | some a =>
      ExceptionAggregator.Merge ⟨[]⟩ (some (PyVal.dict a.contents))

/-- `ExceptionAggregator.__init__` (lines 26-34): start with an empty dict,
then run the `Contents` setter on the argument. -/
def ExceptionAggregator.init (exceptAgg : Option ExceptionAggregator) :
    Except PyErr ExceptionAggregator :=
  contentsSetter ⟨[]⟩ exceptAgg

/-- `ExceptionAggregator.HasErrors` (lines 163-168): `len(keys) > 0`. -/
def ExceptionAggregator.HasErrors (self : ExceptionAggregator) : Bool :=
  decide (self.contents.length > 0)

/-- The observable outcome of a `GenerateLogFile` call: the file system
afterwards, the aggregator afterwards, everything printed to the console,
and the exception (if any) that propagated to the caller. -/
structure GLFOutcome where
  fs : FileSys
  agg : ExceptionAggregator
  console : List String := []
  raised : Option PyErr := none

/-- The message text the `except` handler reads from the caught exception
(`err.message`, the Python-2 style attribute this codebase uses). -/
def errMessage : PyErr → String
  | PyErr.valueError m => m
  | PyErr.nameError m => m
  | PyErr.merlinExc r => r.specific

/-- `ExceptionAggregator.GenerateLogFile` (lines 110-136).  Faithful control
flow:
* `noLog` is coerced to bool (identity here) and `valueDate` is
  type-checked (the embedding takes it already typed);
* if `HasErrors` is false or `noLog` is set, return with nothing touched;
* otherwise build the `LogFile`, `Append` every stored record, and `Print`;
* the handler `except Exception as err` re-adds a
  `LogFileFailed('', logPath, err.message)` via `self.Add` — but it can
  only catch `Exception` subclasses, and every `MerlinPlottingExcept`
  derives directly from `BaseException`, so the `LogFileFailed` raised by
  `LogFile.Print` is *not* caught and propagates to the caller. -/
def ExceptionAggregator.GenerateLogFile (self : ExceptionAggregator)
    (valueDate : Nat) (runTime : String) (noLog : Bool) (logPath : String)
    (fs : FileSys) : GLFOutcome :=
  if !self.HasErrors || noLog then { fs := fs, agg := self }
  else
    let logFile := self.contents.foldl (fun lf p => lf.Append p.2)
      (mkLogFile valueDate runTime logPath)
    match logFile.Print fs with
    | Except.ok fs' => { fs := fs', agg := self }
    | Except.error (PyErr.merlinExc r) =>
        -- not an `Exception`: the handler does not run; the record propagates
        { fs := fs, agg := self, raised := some (PyErr.merlinExc r) }
    | Except.error e =>
        -- `Exception` subclasses are caught and re-inserted into the aggregator
        { fs := fs,
          agg := self.Add (mkLogFileFailed "" logFile.path (errMessage e)) }

/-! ### Concrete inputs used by individual witnesses and counterexamples -/

/-- A one-record aggregator handed to `Merge` when exercising the merge
loop. -/
def c1Other : ExceptionAggregator :=
  ⟨[(ErrKind.merlinCurvesMissing,
     { kind := ErrKind.merlinCurvesMissing
       callingFunc := "Plots::Load"
       contents := [Entry.str "USD-LIBOR"] })]⟩

/-- A concrete `CommandLineErrors` record for exercising `HandleAndExit`. -/
def c2Record : ErrRecord :=
  mkCommandLineErrors "Main::ParseArgs" "" ["--frobnicate"] "" 3 []

/-- A one-record aggregator whose log write will fail. -/
def c3Agg : ExceptionAggregator :=
  ⟨[(ErrKind.outlookFailed,
     { kind := ErrKind.outlookFailed, callingFunc := "Mail::Send", specific := "smtp down" })]⟩

/-- A file system on which opening the log path for writing fails. -/
def c3FS : FileSys := { files := fun _ => none, writeErr := some "disk full" }

/-- The outcome of running `GenerateLogFile` on `c3Agg` against `c3FS`. -/
def c3Outcome : GLFOutcome :=
  c3Agg.GenerateLogFile 20240105 "10:00" false "LogFile/MerlinPlotting LogFile.txt" c3FS

/-- Aggregator for the `C3` amended-claim witness. -/
def c3wAgg : ExceptionAggregator :=
  ⟨[(ErrKind.failedPDF, { kind := ErrKind.failedPDF, path := "out.pdf" })]⟩

/-- File system for the `C3` amended-claim witness. -/
def c3wFS : FileSys := { files := fun _ => none, writeErr := some "permission denied" }

/-- A `LogFile` holding one NonFatal record, for the `C4` witness. -/
def c4Lf : LogFile :=
  { path := "LogFile/MerlinPlotting LogFile.txt"
    nonFatalErrors := [{ kind := ErrKind.outlookFailed, callingFunc := "Mail::Send",
                         specific := "smtp down", timestamp := 7 }] }

/-- A file system already holding a log file with one prior row, for the
`C4` witness. -/
def c4FS : FileSys :=
  { files := fun q =>
      if q = "LogFile/MerlinPlotting LogFile.txt" then
        some (LogFileHeaders ++ ["old row 1", "old row 2"])
      else none }

/-- A 262-character message (261 letters and one horizontal tab, no line
break): the `C5` counterexample input. -/
def c5Msg : List Char := List.replicate 261 'a' ++ ['\t']

/-- A 262-character message with no tab and no line break: the `C5`
amended-claim witness input. -/
def c5wMsg : List Char := List.replicate 262 'a'

/-- A file system with one unrelated file, for the `C6` witness. -/
def c6FS : FileSys :=
  { files := fun q => if q = "other.txt" then some ["keep me"] else none }

/-! ### Helper lemmas -/

theorem pairKeys_mem {k v : String} {l : List Entry} (h : Entry.pair k v ∈ l) :
    k ∈ pairKeys l := by
  simp only [pairKeys, List.mem_filterMap]
  exact ⟨Entry.pair k v, h, rfl⟩

theorem pySplit_of_not_mem {sep : Char} : ∀ {l : List Char}, sep ∉ l →
    pySplit sep l = [l] := by
  intro l
  induction l with
  | nil => intro _; rfl
  | cons c rest ih =>
      intro h
      have hc : c ≠ sep := fun hcs => h (hcs ▸ List.mem_cons_self c rest)
      have hrest : sep ∉ rest := fun hr => h (List.mem_cons_of_mem c hr)
      simp [pySplit, hc, ih hrest]

theorem FileSys.files_setFile_self (fs : FileSys) (p : String) (v : List String) :
    (fs.setFile p v).files p = some v := by
  simp [FileSys.setFile]

theorem LogFile.path_foldl_append (l : List (ErrKind × ErrRecord)) (lf : LogFile) :
    (l.foldl (fun lf p => lf.Append p.2) lf).path = lf.path := by
  induction l generalizing lf with
  | nil => rfl
  | cons p rest ih =>
      simp only [List.foldl_cons]
      rw [ih]
      unfold LogFile.Append
      split <;> rfl

/-! ### Claim theorems -/

/-- Claim C7: `ExceptionContainerType.Add` is deduplicating — adding a
string entry that is already present leaves the contents unchanged, and
adding a pair entry whose key equals the key of a stored pair leaves the
contents unchanged (the first pair is kept, the new value discarded). -/
theorem containerAdd_dedups (contents : List Entry) (s k v v' : String) :
    (Entry.str s ∈ contents →
      ExceptionContainerType.Add contents (Entry.str s) = contents) ∧
    (Entry.pair k v ∈ contents →
      ExceptionContainerType.Add contents (Entry.pair k v') = contents) := by
  constructor
  · intro h
    simp [ExceptionContainerType.Add, h]
  · intro h
    simp [ExceptionContainerType.Add, pairKeys_mem h]

/-- Claim C7 witness: on the concrete contents `["x", ("k", "1")]`,
re-adding the string `"x"` and adding the pair `("k", "2")` both leave the
contents unchanged. -/
theorem containerAdd_dedups_witness :
    (Entry.str "x" ∈ [Entry.str "x", Entry.pair "k" "1"] ∧
      ExceptionContainerType.Add [Entry.str "x", Entry.pair "k" "1"] (Entry.str "x") =
        [Entry.str "x", Entry.pair "k" "1"]) ∧
    (Entry.pair "k" "1" ∈ [Entry.str "x", Entry.pair "k" "1"] ∧
      ExceptionContainerType.Add [Entry.str "x", Entry.pair "k" "1"] (Entry.pair "k" "2") =
        [Entry.str "x", Entry.pair "k" "1"]) :=
  ⟨⟨by decide,
    (containerAdd_dedups [Entry.str "x", Entry.pair "k" "1"] "x" "k" "1" "2").1 (by decide)⟩,
   ⟨by decide,
    (containerAdd_dedups [Entry.str "x", Entry.pair "k" "1"] "x" "k" "1" "2").2 (by decide)⟩⟩

/-- Claim C8: `ExceptionContainerType.Merge` sets the receiving record's
timestamp to the minimum of the two timestamps — in particular, merging a
record timestamped `t1` into one timestamped `t2` with `t1 < t2` yields
`t1` — and a merge never raises the receiving record's timestamp. -/
theorem containerMerge_timestamp_min (self other : ErrRecord) :
    (ExceptionContainerType.Merge self other).timestamp =
      min self.timestamp other.timestamp ∧
    (other.timestamp < self.timestamp →
      (ExceptionContainerType.Merge self other).timestamp = other.timestamp) ∧
    (ExceptionContainerType.Merge self other).timestamp ≤ self.timestamp := by
  simp only [ExceptionContainerType.Merge]
  split <;> omega

/-- Claim C8 witness: merging a record timestamped `1` into a record
timestamped `5` leaves the receiver timestamped `1`. -/
theorem containerMerge_timestamp_min_witness :
    (1 : Nat) < 5 ∧
    (ExceptionContainerType.Merge
      { kind := ErrKind.merlinCurvesMissing, timestamp := 5 }
      { kind := ErrKind.merlinCurvesMissing, timestamp := 1 }).timestamp = 1 :=
  ⟨by decide,
   (containerMerge_timestamp_min
      { kind := ErrKind.merlinCurvesMissing, timestamp := 5 }
      { kind := ErrKind.merlinCurvesMissing, timestamp := 1 }).2.1 (by decide)⟩

/-- Claim C9: `CommandLineErrors.HasErrors` is the OR of the base
container's non-emptiness and the auxiliary invalid-arguments list's
non-emptiness; in particular a record with empty contents but a non-empty
invalid-arguments list reports errors. -/
theorem cmdLineErrors_hasErrors_or (r : ErrRecord) :
    (CommandLineErrors.HasErrors r = true ↔
      r.contents ≠ [] ∨ r.invalidArgs ≠ []) ∧
    (r.contents = [] → r.invalidArgs ≠ [] →
      CommandLineErrors.HasErrors r = true) := by
  constructor
  · simp [CommandLineErrors.HasErrors, ExceptionContainerType.HasErrors,
      List.length_pos]
  · intro _ h2
    simp [CommandLineErrors.HasErrors, ExceptionContainerType.HasErrors,
      List.length_pos, h2]

/-- Claim C9 witness: a `CommandLineErrors` built with no command-line
detail but one invalid argument has empty contents, a non-empty auxiliary
list, and `HasErrors = true`. -/
theorem cmdLineErrors_hasErrors_or_witness :
    (mkCommandLineErrors "Main::ParseArgs" "" ["--frobnicate"] "" 3 []).contents = [] ∧
    (mkCommandLineErrors "Main::ParseArgs" "" ["--frobnicate"] "" 3 []).invalidArgs ≠ [] ∧
    CommandLineErrors.HasErrors
      (mkCommandLineErrors "Main::ParseArgs" "" ["--frobnicate"] "" 3 []) = true :=
  ⟨by decide, by decide,
   (cmdLineErrors_hasErrors_or
      (mkCommandLineErrors "Main::ParseArgs" "" ["--frobnicate"] "" 3 [])).2
      (by decide) (by decide)⟩

/-- Claim C10: copy-construction `ExceptionAggregator(a)` always raises
`ValueError` — the `Contents` setter hands the source's internal dict (not
an aggregator) to `Merge`, whose type guard rejects it — for every source
aggregator `a`, empty or not; construction with the default `None` succeeds
and produces an empty aggregator. -/
theorem exceptionAggregator_copy_init_raises (a : ExceptionAggregator) :
    ExceptionAggregator.init (some a) =
      Except.error (PyErr.valueError "exceptionAgg must be an ExceptionAggregator object.") ∧
    ExceptionAggregator.init none = Except.ok ⟨[]⟩ :=
  ⟨rfl, rfl⟩

/-- Claim C1 (the code violates the claim): for every non-empty other
aggregator, `self.Merge(other)` never reaches `self.Add` with the stored
record — the loop guard evaluates `IsContainerType` on the dict *key* (a
class object, never an instance of `ExceptionContainerType`), so the `else`
branch runs and evaluates the undefined name `item`, raising `NameError`
before any record is transferred. -/
theorem aggregatorMerge_nonempty_raises_nameError
    (self other : ExceptionAggregator) (h : other.contents ≠ []) :
    self.Merge (some (PyVal.aggObj other)) =
      Except.error (PyErr.nameError "name 'item' is not defined") := by
  show mergeLoop self other.contents = _
  match hob : other.contents with
  | [] => exact absurd hob h
  | (k, r) :: rest => simp [mergeLoop, ExceptionAggregator.IsContainerType]

/-- Claim C1 witness: merging a one-record aggregator into an empty one
raises `NameError` instead of transferring the record. -/
theorem aggregatorMerge_nonempty_raises_nameError_witness :
    c1Other.contents ≠ [] ∧
    ExceptionAggregator.Merge ⟨[]⟩ (some (PyVal.aggObj c1Other)) =
      Except.error (PyErr.nameError "name 'item' is not defined") :=
  ⟨by decide, aggregatorMerge_nonempty_raises_nameError ⟨[]⟩ c1Other (by decide)⟩

/-- Claim C2 (the code violates the claim): `Fatal.HandleAndExit` prints
the fixed banner, the message, and `'Exiting application.'` — and then
returns control to its caller: its effect trace contains no process
termination (`sys.exit` is called nowhere in the repository), although its
own docstring promises to "exit application immediately". -/
theorem handleAndExit_returns_without_exit (r : ErrRecord) (granular : Bool)
    (h : isFatalKind r.kind = true) :
    Fatal.HandleAndExit r granular =
      [ConsoleEffect.print Fatal.MessageHeader,
       ConsoleEffect.print (r.Message granular),
       ConsoleEffect.print "Exiting application."] ∧
    ConsoleEffect.exitApp ∉ Fatal.HandleAndExit r granular := by
  refine ⟨rfl, ?_⟩
  simp [Fatal.HandleAndExit]

/-- Claim C2 witness: calling `HandleAndExit(True)` on a concrete
`CommandLineErrors` record produces the three prints and no exit. -/
theorem handleAndExit_returns_without_exit_witness :
    isFatalKind c2Record.kind = true ∧
    (Fatal.HandleAndExit c2Record true =
      [ConsoleEffect.print Fatal.MessageHeader,
       ConsoleEffect.print (c2Record.Message true),
       ConsoleEffect.print "Exiting application."] ∧
     ConsoleEffect.exitApp ∉ Fatal.HandleAndExit c2Record true) :=
  ⟨by decide, handleAndExit_returns_without_exit c2Record true (by decide)⟩

/-- Claim C6: when the aggregator reports no errors or the caller suppressed
logging, `GenerateLogFile` leaves the file system untouched (no file
created, every pre-existing file byte-for-byte unchanged), performs no
console output, raises nothing to the caller, and leaves the aggregator as
it was. -/
theorem generateLogFile_noErrors_or_noLog_no_io
    (agg : ExceptionAggregator) (valueDate : Nat) (runTime : String)
    (noLog : Bool) (logPath : String) (fs : FileSys)
    (h : agg.HasErrors = false ∨ noLog = true) :
    agg.GenerateLogFile valueDate runTime noLog logPath fs =
      { fs := fs, agg := agg, console := [], raised := none } := by
  rcases h with h | h <;> simp [ExceptionAggregator.GenerateLogFile, h]

/-- Claim C6 witness: an empty aggregator run against a file system holding
one unrelated file leaves that file system exactly as it was. -/
theorem generateLogFile_noErrors_or_noLog_no_io_witness :
    ExceptionAggregator.HasErrors ⟨[]⟩ = false ∧
    ExceptionAggregator.GenerateLogFile ⟨[]⟩ 20240105 "10:00" false
        "LogFile/MerlinPlotting LogFile.txt" c6FS =
      { fs := c6FS, agg := ⟨[]⟩, console := [], raised := none } :=
  ⟨by decide,
   generateLogFile_noErrors_or_noLog_no_io ⟨[]⟩ 20240105 "10:00" false
     "LogFile/MerlinPlotting LogFile.txt" c6FS (Or.inl (by decide))⟩

/-- Claim C3 counterexample: on a concrete run whose log write fails, the
failure does surface as a `LogFileFailed` record carrying the attempted path
and the cause, but nothing is reported to the console (the claim says it is
"reported to the console directly"), and the record reaches the caller as a
raised exception: `except Exception` cannot catch it because every
`MerlinPlottingExcept` derives directly from `BaseException`. -/
theorem generateLogFile_writeFailure_console_counterexample :
    c3Outcome.console = [] ∧
    c3Outcome.raised =
      some (PyErr.merlinExc
        (mkLogFileFailed "LogFile::Print()" "LogFile/MerlinPlotting LogFile.txt" "disk full")) ∧
    c3Outcome.agg = c3Agg :=
  ⟨rfl, rfl, rfl⟩

/-- Claim C3 as amended: a failure of the log write inside `GenerateLogFile`
surfaces as a `LogFileFailed` NonFatal error carrying the attempted log path
and the underlying cause, but it propagates as a raised exception to the
caller of `GenerateLogFile` — it is neither reported to the console nor
re-inserted into the aggregator (the `except Exception` handler that would
re-insert it cannot catch a `BaseException`-derived record), and the file
system is left unchanged. -/
theorem generateLogFile_writeFailure_raises_to_caller
    (agg : ExceptionAggregator) (valueDate : Nat) (runTime : String)
    (logPath : String) (fs : FileSys) (msg : String)
    (hErr : agg.HasErrors = true) (hw : fs.writeErr = some msg) :
    agg.GenerateLogFile valueDate runTime false logPath fs =
      { fs := fs, agg := agg, console := [],
        raised := some (PyErr.merlinExc (mkLogFileFailed "LogFile::Print()" logPath msg)) } := by
  have hpath :
      (agg.contents.foldl (fun lf p => lf.Append p.2)
        (mkLogFile valueDate runTime logPath)).path = logPath :=
    LogFile.path_foldl_append agg.contents (mkLogFile valueDate runTime logPath)
  simp only [ExceptionAggregator.GenerateLogFile, hErr, Bool.not_true,
    Bool.false_or, LogFile.Print, hw, hpath]
  simp

/-- Claim C3 amended-claim witness: a one-record aggregator against a file
system whose write fails with "permission denied" yields exactly the raised
`LogFileFailed`, an unchanged aggregator, no console output and an unchanged
file system. -/
theorem generateLogFile_writeFailure_raises_to_caller_witness :
    c3wAgg.HasErrors = true ∧ c3wFS.writeErr = some "permission denied" ∧
    c3wAgg.GenerateLogFile 20240105 "10:00" false "log.txt" c3wFS =
      { fs := c3wFS, agg := c3wAgg, console := [],
        raised := some (PyErr.merlinExc
          (mkLogFileFailed "LogFile::Print()" "log.txt" "permission denied")) } :=
  ⟨by decide, rfl,
   generateLogFile_writeFailure_raises_to_caller c3wAgg 20240105 "10:00"
     "log.txt" c3wFS "permission denied" (by decide) rfl⟩

/-- Claim C4: when `LogFile.Print` writes to a path already holding a log
file (two header lines followed by its body), the resulting file is, in
order, the two-line header, then all newly rendered rows, then the prior
file's body with its two header lines removed — the header appears once and
no prior entry is lost. -/
theorem logFilePrint_preserves_history (lf : LogFile) (fs : FileSys)
    (body : List String) (hw : fs.writeErr = none)
    (hfile : fs.files lf.path = some (LogFileHeaders ++ body)) :
    lf.Print fs =
      Except.ok (fs.setFile lf.path (LogFileHeaders ++ (lf.renderedRows ++ body))) ∧
    (fs.setFile lf.path (LogFileHeaders ++ (lf.renderedRows ++ body))).files lf.path =
      some (LogFileHeaders ++ (lf.renderedRows ++ body)) := by
  refine ⟨?_, FileSys.files_setFile_self ..⟩
  unfold LogFile.Print
  rw [hw]
  simp only [FileSys.checkPath, hfile, Option.isSome_some, if_true, Option.getD_some]
  cases body with
  | nil => simp [LogFileHeaders]
  | cons b bs => simp [LogFileHeaders]

/-- Claim C4 witness: printing a one-record `LogFile` over an existing log
holding two prior rows yields header, new rows, then the two prior rows. -/
theorem logFilePrint_preserves_history_witness :
    c4FS.writeErr = none ∧
    c4FS.files c4Lf.path = some (LogFileHeaders ++ ["old row 1", "old row 2"]) ∧
    c4Lf.Print c4FS =
      Except.ok (c4FS.setFile c4Lf.path
        (LogFileHeaders ++ (c4Lf.renderedRows ++ ["old row 1", "old row 2"]))) :=
  ⟨rfl, rfl,
   (logFilePrint_preserves_history c4Lf c4FS ["old row 1", "old row 2"] rfl rfl).1⟩

set_option maxRecDepth 10000

/-- Claim C5 counterexample: a 262-character message with no embedded line
break but containing a horizontal tab chunks into rows of lengths
105, 105, 51 — not 105, 105, 52 — and concatenating the rows does not
reproduce the original message (the tab was stripped before chunking while
the slice bounds still use the original length). -/
theorem messageChunks_262_tab_counterexample :
    c5Msg.length = 262 ∧ '\n' ∉ c5Msg ∧
    (MessageChunks c5Msg).map List.length = [105, 105, 51] ∧
    (MessageChunks c5Msg).foldl (· ++ ·) [] ≠ c5Msg :=
  ⟨by decide, by decide, by decide, by decide⟩

/-- Claim C5 as amended: for every message of length 262 containing no
embedded line break *and no horizontal tab*, chunking with the buffer width
105 produces exactly three rows of lengths 105, 105 and 52, and
concatenating the rows in order reproduces the original message. -/
theorem messageChunks_262_no_tabs (m : List Char)
    (hlen : m.length = 262) (hnl : '\n' ∉ m) (htab : '\t' ∉ m) :
    (MessageChunks m).map List.length = [105, 105, 52] ∧
    (MessageChunks m).foldl (· ++ ·) [] = m := by
  have hfilter : (m.filter fun c => c ≠ '\t') = m := by
    rw [List.filter_eq_self]
    intro a ha
    simp only [ne_eq, decide_eq_true_eq]
    exact fun h => htab (h ▸ ha)
  have hrange : pyRange 262 105 = [0, 105, 210] := by decide
  have hchunks : MessageChunks m =
      [pySlice m 0 105, pySlice m 105 210, pySlice m 210 262] := by
    simp only [MessageChunks, hfilter, pySplit_of_not_mem hnl, hlen, hrange,
      MessageBufferLength, List.foldl_cons, List.foldl_nil, List.nil_append,
      List.map_cons, List.map_nil]
    norm_num
  have h1 : pySlice m 0 105 = m.take 105 := by simp [pySlice]
  have h2 : pySlice m 210 262 = m.drop 210 := by
    apply List.take_of_length_le
    rw [List.length_drop, hlen]
  have hd2 : m.drop 210 = (m.drop 105).drop 105 := by
    rw [List.drop_drop]
  have hsl : pySlice m 105 210 = (m.drop 105).take 105 := by
    show (m.drop 105).take (210 - 105) = (m.drop 105).take 105
    norm_num
  have h3 : pySlice m 105 210 ++ m.drop 210 = m.drop 105 := by
    rw [hsl, hd2, List.take_append_drop]
  constructor
  · rw [hchunks]
    simp only [List.map_cons, List.map_nil, pySlice, List.length_take,
      List.length_drop, hlen]
    norm_num
  · rw [hchunks]
    simp only [List.foldl_cons, List.foldl_nil, List.nil_append, List.append_assoc]
    rw [h1, h2, h3, List.take_append_drop]

/-- Claim C5 amended-claim witness: 262 letters with no tab and no line
break chunk into rows of lengths 105, 105 and 52 whose concatenation is the
original message. -/
theorem messageChunks_262_no_tabs_witness :
    c5wMsg.length = 262 ∧ '\n' ∉ c5wMsg ∧ '\t' ∉ c5wMsg ∧
    ((MessageChunks c5wMsg).map List.length = [105, 105, 52] ∧
     (MessageChunks c5wMsg).foldl (· ++ ·) [] = c5wMsg) :=
  ⟨by decide, by decide, by decide,
   messageChunks_262_no_tabs c5wMsg (by decide) (by decide) (by decide)⟩
